import Mathlib

/-
Verification of the unity-midi-receiver-windows plugin
(src/UnityMidiReceiver/UnityMidiReceiver.cpp) against its design
specification.

Shallow embedding notes:
- Machine integers are modelled as Nat with explicit truncation (% 2^w)
  where the C++ type forces it.
- The target is 32-bit Windows / x86 (little-endian, MSVC layout); the
  `Message` union (lines 18-36) therefore lays out its anonymous struct as
  bytes 0-3 = source, byte 4 = status, byte 5 = data1, byte 6 = data2 and
  byte 7 = tail padding of the 8-byte union. `uint64ValueWithPad` takes
  the (indeterminate) padding byte as an explicit parameter.
- The Win32 winmm API is modelled as an environment record `MidiEnv`
  (device count, midiInOpen, midiInStart); `assert` failure (lines 82, 85)
  aborts the process and is modelled as `Option.none`.
- The globals `handles` (line 39) and `messageQueue` (line 42) form the
  explicit `PluginState`; std::queue push is appending at the tail of a
  list, front() is the head, back() is the last element.
-/

namespace UnityMidiReceiver

/-- ConvertHandle (lines 13-15): reinterpret the handle value as a 32-bit
integer (the repo targets a 32-bit build; reinterpretation truncates the
numeric handle value to 32 bits). -/
def ConvertHandle (handle : Nat) : Nat := handle % 2 ^ 32

/-- Message union fields (lines 18-34): uint32_t source; uint8_t status;
uint8_t data1; uint8_t data2. -/
structure Message where
  source : Nat
  status : Nat
  data1 : Nat
  data2 : Nat
deriving DecidableEq

/-- The uint64Value view of the union on the little-endian 32-bit Windows
target: source occupies bits 31-0, status bits 39-32, data1 bits 47-40,
data2 bits 55-48; bits 63-56 are the struct tail padding byte, passed
explicitly because C++ leaves it indeterminate. -/
def Message.uint64ValueWithPad (pad : Nat) (m : Message) : Nat :=
  m.source % 2 ^ 32 + m.status % 2 ^ 8 * 2 ^ 32 + m.data1 % 2 ^ 8 * 2 ^ 40 +
    m.data2 % 2 ^ 8 * 2 ^ 48 + pad % 2 ^ 8 * 2 ^ 56

/-- The uint64Value view with a zero padding byte (the value the union
yields when the padding byte happens to be zero). -/
def Message.uint64Value (m : Message) : Nat := Message.uint64ValueWithPad 0 m

/-- Reading the union fields back from a 64-bit value (the inverse view of
the same little-endian layout). -/
def Message.ofUint64 (v : Nat) : Message :=
  ⟨v % 2 ^ 32, v / 2 ^ 32 % 2 ^ 8, v / 2 ^ 40 % 2 ^ 8, v / 2 ^ 48 % 2 ^ 8⟩

/-- Decoding of a 64-bit wire value as the specification states it
(spec 6: endpointId in bits 63-32, status in bits 31-24, data1 in bits
23-16, data2 in bits 15-8). Written from the spec wording, to be compared
with the layout of the source union. -/
def specDecode (v : Nat) : Message :=
  ⟨v / 2 ^ 32 % 2 ^ 32, v / 2 ^ 24 % 2 ^ 8, v / 2 ^ 16 % 2 ^ 8, v / 2 ^ 8 % 2 ^ 8⟩

/-- Win32 constant MM_MIM_DATA (the MIM_DATA callback message). -/
def MM_MIM_DATA : Nat := 0x3C3

/-- MyMidiInProc (lines 46-59): on MIM_DATA, extract status = dwParam1 &
0xff, data1 = (dwParam1 >> 8) & 0xff, data2 = (dwParam1 >> 16) & 0xff and
push Message(hMidiIn, status, data1, data2); on any other wMsg the queue
is untouched. -/
def MyMidiInProc (hMidiIn wMsg dwParam1 : Nat) (messageQueue : List Message) :
    List Message :=
  if wMsg = MM_MIM_DATA then
    messageQueue ++
      [⟨ConvertHandle hMidiIn, dwParam1 % 2 ^ 8, dwParam1 / 2 ^ 8 % 2 ^ 8,
        dwParam1 / 2 ^ 16 % 2 ^ 8⟩]
  else messageQueue

/-- The winmm environment: midiInGetNumDevs, midiInOpen (None = failure,
which makes the assert at line 82 fire) and midiInStart (false = failure,
assert at line 85). -/
structure MidiEnv where
  midiInGetNumDevs : Nat
  midiInOpen : Nat → Option Nat
  midiInStart : Nat → Bool

/-- The plugin globals: handles (line 39) and messageQueue (line 42). -/
structure PluginState where
  handles : List Nat
  messageQueue : List Message
deriving DecidableEq

/-- The enumeration loop of ResetPluginIfRequired (lines 79-88): for each
slot i in 0..n-1, midiInOpen, assert success, midiInStart, assert success,
push the handle. An assert failure aborts (None). -/
def openAll (env : MidiEnv) : Nat → Option (List Nat)
  | 0 => some []
  | n + 1 =>
    match openAll env n with
    | none => none
    | some hs =>
      match env.midiInOpen n with
      | none => none
      | some h => if env.midiInStart h then some (hs ++ [h]) else none

/-- Result of one ResetPluginIfRequired call: the new state plus the work
it performed (which handles were passed to midiInClose, how many slots
were opened). -/
structure ResetResult where
  state : PluginState
  closedHandles : List Nat
  openedSlots : Nat
deriving DecidableEq

/-- ResetPluginIfRequired (lines 62-89): if midiInGetNumDevs equals
handles.size, return immediately (no close, no open, queue untouched);
otherwise close every handle, clear the queue by swapping with an empty
one, and open/start slots 0..n-1; an assert failure aborts. -/
def ResetPluginIfRequired (env : MidiEnv) (s : PluginState) : Option ResetResult :=
  if env.midiInGetNumDevs = s.handles.length then some ⟨s, [], 0⟩
  else
    match openAll env env.midiInGetNumDevs with
    | none => none
    | some hs => some ⟨⟨hs, []⟩, s.handles, env.midiInGetNumDevs⟩

/-- UnityMIDIReceiver_CountEndpoints (lines 97-101): refresh, then return
handles.size as int. -/
def UnityMIDIReceiver_CountEndpoints (env : MidiEnv) (s : PluginState) :
    Option (Int × PluginState) :=
  match ResetPluginIfRequired env s with
  | none => none
  | some r => some ((r.state.handles.length : Int), r.state)

/-- UnityMIDIReceiver_GetEndpointIDAtIndex (lines 104-111): if 0 <= index
< handles.size, ConvertHandle(handles[index]), else 0. (The in-range guard
makes the getD default unreachable.) -/
def UnityMIDIReceiver_GetEndpointIDAtIndex (s : PluginState) (index : Int) : Nat :=
  if 0 ≤ index ∧ index < (s.handles.length : Int) then
    ConvertHandle (s.handles.getD index.toNat 0)
  else 0

/-- UnityMIDIReceiver_DequeueIncomingData (lines 136-148): refresh; if the
queue is empty return 0; otherwise read messageQueue.back() (the NEWEST
element - faithful to line 143) and pop() the front (the oldest), and
return the read message's uint64Value. The returned value is modelled with
padding byte 0. -/
def UnityMIDIReceiver_DequeueIncomingData (env : MidiEnv) (s : PluginState) :
    Option (Nat × PluginState) :=
  match ResetPluginIfRequired env s with
  | none => none
  | some r =>
    match r.state.messageQueue with
    | [] => some (0, r.state)
    | m :: rest =>
      some (Message.uint64Value (List.getLastD rest m), ⟨r.state.handles, rest⟩)

/-- Kinds of accesses the source performs on the shared messageQueue. -/
inductive QueueOp where
  | emptyCheck
  | readBack
  | popFront
  | push
  | clear
deriving DecidableEq

/-- One access to the shared messageQueue, tagged with whether
messageQueueLock is held at that program point. -/
structure QueueAccess where
  op : QueueOp
  lockHeld : Bool
deriving DecidableEq

/-- Queue accesses performed by MyMidiInProc on MIM_DATA (lines 55-57):
lock(); push; unlock(). The push runs under the lock. -/
def midiInProcDataAccesses : List QueueAccess := [⟨QueueOp.push, true⟩]

/-- Queue accesses performed by UnityMIDIReceiver_DequeueIncomingData
(lines 140-145): messageQueue.empty() at line 140 runs BEFORE lock() at
line 142; back() and pop() run under the lock. -/
def dequeueAccesses : List QueueAccess :=
  [⟨QueueOp.emptyCheck, false⟩, ⟨QueueOp.readBack, true⟩, ⟨QueueOp.popFront, true⟩]

/-- Queue access performed by ResetPluginIfRequired when it refreshes
(lines 75-76): std::swap with an empty queue, with no lock acquired
anywhere in the function. -/
def resetClearAccesses : List QueueAccess := [⟨QueueOp.clear, false⟩]

/-- True when every access of the trace runs with the guard held. -/
def allGuarded (t : List QueueAccess) : Bool := t.all fun a => a.lockHeld

/-! Concrete environments and states used to instantiate the theorems. -/

/-- An environment with one device, where every open/start succeeds. -/
def env1 : MidiEnv := ⟨1, fun _ => some 7, fun _ => true⟩

/-- An environment with three devices, where slot i opens to handle 100+i
and every start succeeds. -/
def env3 : MidiEnv := ⟨3, fun i => some (100 + i), fun _ => true⟩

/-- A note-on message from source 1. -/
def m1c : Message := ⟨1, 0x90, 60, 100⟩

/-- A note-off message from source 2. -/
def m2c : Message := ⟨2, 0x80, 61, 0⟩

/-! Helper lemmas. -/

/-- openAll returns exactly one handle per slot. -/
theorem openAll_length (env : MidiEnv) (n : Nat) (hs : List Nat)
    (h : openAll env n = some hs) : hs.length = n := by
  induction n generalizing hs with
  | zero =>
    simp only [openAll, Option.some.injEq] at h
    subst h
    rfl
  | succ n ih =>
    simp only [openAll] at h
    cases hn : openAll env n with
    | none => rw [hn] at h; exact absurd h (by simp)
    | some hs0 =>
      rw [hn] at h
      cases ho : env.midiInOpen n with
      | none => rw [ho] at h; exact absurd h (by simp)
      | some hd =>
        rw [ho] at h
        by_cases hst : env.midiInStart hd = true
        · simp only [hst, if_true, Option.some.injEq] at h
          subst h
          simp [ih hs0 hn]
        · simp only [Bool.not_eq_true] at hst
          simp [hst] at h

/-- When every slot in 0..n-1 opens and starts successfully, openAll
succeeds and yields n handles. -/
theorem openAll_ok (env : MidiEnv) (n : Nat)
    (h : ∀ i, i < n → ∃ hd, env.midiInOpen i = some hd ∧ env.midiInStart hd = true) :
    ∃ hs, openAll env n = some hs ∧ hs.length = n := by
  induction n with
  | zero => exact ⟨[], rfl, rfl⟩
  | succ n ih =>
    obtain ⟨hs, hhs, hlen⟩ := ih fun i hi => h i (Nat.lt_succ_of_lt hi)
    obtain ⟨hd, hod, hsd⟩ := h n (Nat.lt_succ_self n)
    refine ⟨hs ++ [hd], ?_, by simp [hlen]⟩
    simp only [openAll, hhs, hod, hsd, if_true]

/-- After any successful refresh, the registry size equals the live
device count. -/
theorem reset_state_length (env : MidiEnv) (s : PluginState) (r : ResetResult)
    (h : ResetPluginIfRequired env s = some r) :
    r.state.handles.length = env.midiInGetNumDevs := by
  unfold ResetPluginIfRequired at h
  split at h
  · next heq =>
    simp only [Option.some.injEq] at h
    subst h
    exact heq.symm
  · next hne =>
    cases ho : openAll env env.midiInGetNumDevs with
    | none => rw [ho] at h; exact absurd h (by simp)
    | some hs =>
      rw [ho] at h
      simp only [Option.some.injEq] at h
      subst h
      exact openAll_length env _ hs ho

/-! Claim C1. -/

/-- C1 (code bug): the claim says each dequeue removes AND returns the
oldest queued event. The code (line 143) reads messageQueue.back() - the
newest event - while pop() (line 144) removes the front - the oldest. On a
stable topology with queue [m1c, m2c] (m1c pushed first), the first
dequeue returns m2c's encoding while discarding m1c, and the second
dequeue returns m2c again: the consumer observes [m2c, m2c] instead of
[m1c, m2c], and m1c's value is never returned. -/
theorem C1_dequeue_returns_newest_pops_oldest :
    UnityMIDIReceiver_DequeueIncomingData env1 ⟨[5], [m1c, m2c]⟩ =
      some (Message.uint64Value m2c, ⟨[5], [m2c]⟩) ∧
    UnityMIDIReceiver_DequeueIncomingData env1 ⟨[5], [m2c]⟩ =
      some (Message.uint64Value m2c, ⟨[5], []⟩) ∧
    Message.uint64Value m2c ≠ Message.uint64Value m1c := by
  refine ⟨rfl, rfl, by decide⟩

/-! Claim C2. -/

/-- C2 (counterexample): a message with endpointId 0x1234, status 0x90,
data1 60, data2 127 is dequeued as the 64-bit value 0x7F3C9000001234.
Decoding that value at the spec's claimed bit positions does not recover
the endpoint identifier (bits 63-32 hold 0x7F3C90, not 0x1234), and the
low byte is 0x34, not zero: the claimed layout is false for this value. -/
theorem C2_claimed_layout_false :
    UnityMIDIReceiver_DequeueIncomingData env1 ⟨[5], [⟨0x1234, 0x90, 60, 127⟩]⟩ =
      some (0x7F3C9000001234, ⟨[5], []⟩) ∧
    (specDecode 0x7F3C9000001234).source ≠ 0x1234 ∧
    0x7F3C9000001234 % 2 ^ 8 ≠ 0 := by
  refine ⟨rfl, by decide, by decide⟩

/-- C2 (amended): on the little-endian 32-bit Windows target the union
stores the endpoint identifier in bits 31-0, the status in bits 39-32,
data1 in bits 47-40 and data2 in bits 55-48; the TOP byte (bits 63-56) is
struct padding, indeterminate rather than guaranteed zero. For every
in-range field assignment and any padding byte, the 64-bit value dequeue
returns carries the fields at exactly those positions. -/
theorem C2_actual_layout (src st d1 d2 pad : Nat)
    (h1 : src < 2 ^ 32) (h2 : st < 2 ^ 8) (h3 : d1 < 2 ^ 8) (h4 : d2 < 2 ^ 8) :
    Message.uint64ValueWithPad pad ⟨src, st, d1, d2⟩ % 2 ^ 32 = src ∧
    Message.uint64ValueWithPad pad ⟨src, st, d1, d2⟩ / 2 ^ 32 % 2 ^ 8 = st ∧
    Message.uint64ValueWithPad pad ⟨src, st, d1, d2⟩ / 2 ^ 40 % 2 ^ 8 = d1 ∧
    Message.uint64ValueWithPad pad ⟨src, st, d1, d2⟩ / 2 ^ 48 % 2 ^ 8 = d2 := by
  simp only [Message.uint64ValueWithPad]
  omega

/-- C2 (witness): the amended layout at endpointId 0x1234, status 0x90,
data1 60, data2 127, padding byte 0. -/
theorem C2_actual_layout_witness :
    Message.uint64ValueWithPad 0 ⟨0x1234, 0x90, 60, 127⟩ % 2 ^ 32 = 0x1234 ∧
    Message.uint64ValueWithPad 0 ⟨0x1234, 0x90, 60, 127⟩ / 2 ^ 32 % 2 ^ 8 = 0x90 ∧
    Message.uint64ValueWithPad 0 ⟨0x1234, 0x90, 60, 127⟩ / 2 ^ 40 % 2 ^ 8 = 60 ∧
    Message.uint64ValueWithPad 0 ⟨0x1234, 0x90, 60, 127⟩ / 2 ^ 48 % 2 ^ 8 = 127 :=
  C2_actual_layout 0x1234 0x90 60 127 0 (by decide) (by decide) (by decide) (by decide)

/-! Claim C6. -/

/-- C6: encoding a message into the 64-bit wire form of the union and
reading the fields back reproduces all four fields exactly, for every
message whose fields fit their declared widths and any padding byte. -/
theorem C6_roundtrip (m : Message) (pad : Nat)
    (h1 : m.source < 2 ^ 32) (h2 : m.status < 2 ^ 8)
    (h3 : m.data1 < 2 ^ 8) (h4 : m.data2 < 2 ^ 8) :
    Message.ofUint64 (Message.uint64ValueWithPad pad m) = m := by
  obtain ⟨src, st, d1, d2⟩ := m
  simp only [Message.ofUint64, Message.uint64ValueWithPad, Message.mk.injEq] at h1 h2 h3 h4 ⊢
  omega

/-- C6 (witness): the round trip at endpointId 0x1234, status 0x90,
data1 60, data2 127. -/
theorem C6_roundtrip_witness :
    Message.ofUint64 (Message.uint64ValueWithPad 0 ⟨0x1234, 0x90, 60, 127⟩) =
      ⟨0x1234, 0x90, 60, 127⟩ :=
  C6_roundtrip ⟨0x1234, 0x90, 60, 127⟩ 0 (by decide) (by decide) (by decide) (by decide)

/-! Claim C3. -/

/-- C3: when the live device count differs from the registry size (and the
platform honours its open/start contract), the refresh closes exactly the
currently tracked handles, clears the message queue, opens one fresh
session per slot 0..n-1 so that the registry size equals n afterwards, and
a subsequent countEndpoints returns n on an unchanged state. -/
theorem C3_refresh_rebuilds (env : MidiEnv) (s : PluginState)
    (hne : env.midiInGetNumDevs ≠ s.handles.length)
    (hok : ∀ i, i < env.midiInGetNumDevs →
      ∃ hd, env.midiInOpen i = some hd ∧ env.midiInStart hd = true) :
    ∃ r, ResetPluginIfRequired env s = some r ∧
      r.closedHandles = s.handles ∧
      r.state.messageQueue = [] ∧
      r.state.handles.length = env.midiInGetNumDevs ∧
      r.openedSlots = env.midiInGetNumDevs ∧
      UnityMIDIReceiver_CountEndpoints env r.state =
        some ((env.midiInGetNumDevs : Int), r.state) := by
  obtain ⟨hs, hhs, hlen⟩ := openAll_ok env env.midiInGetNumDevs hok
  refine ⟨⟨⟨hs, []⟩, s.handles, env.midiInGetNumDevs⟩, ?_, rfl, rfl, hlen, rfl, ?_⟩
  · unfold ResetPluginIfRequired
    rw [if_neg hne, hhs]
  · unfold UnityMIDIReceiver_CountEndpoints ResetPluginIfRequired
    simp [hlen]

/-- C3 (witness): device count changes from 2 to 3 with one stale event
still queued; the refresh discards the event, opens three sessions and
countEndpoints reports 3 on an empty queue. -/
theorem C3_refresh_rebuilds_witness :
    ∃ r, ResetPluginIfRequired env3 ⟨[7, 8], [m1c]⟩ = some r ∧
      r.closedHandles = [7, 8] ∧
      r.state.messageQueue = [] ∧
      r.state.handles.length = 3 ∧
      r.openedSlots = 3 ∧
      UnityMIDIReceiver_CountEndpoints env3 r.state = some ((3 : Int), r.state) :=
  C3_refresh_rebuilds env3 ⟨[7, 8], [m1c]⟩ (by decide)
    (fun i _ => ⟨100 + i, rfl, rfl⟩)

/-! Claim C4. -/

/-- C4: when the live device count equals the registry size, the refresh
is a no-op (state unchanged, no handle closed, no slot opened), so
countEndpoints returns the registry size with the state untouched, and
running countEndpoints twice yields the same count both times. -/
theorem C4_refresh_idempotent (env : MidiEnv) (s : PluginState)
    (h : env.midiInGetNumDevs = s.handles.length) :
    ResetPluginIfRequired env s = some ⟨s, [], 0⟩ ∧
    UnityMIDIReceiver_CountEndpoints env s = some ((s.handles.length : Int), s) ∧
    (UnityMIDIReceiver_CountEndpoints env s).bind
        (fun cs => UnityMIDIReceiver_CountEndpoints env cs.2) =
      some ((s.handles.length : Int), s) := by
  have hr : ResetPluginIfRequired env s = some ⟨s, [], 0⟩ := by
    unfold ResetPluginIfRequired
    rw [if_pos h]
  have hc : UnityMIDIReceiver_CountEndpoints env s =
      some ((s.handles.length : Int), s) := by
    unfold UnityMIDIReceiver_CountEndpoints
    rw [hr]
  refine ⟨hr, hc, ?_⟩
  rw [hc]
  exact hc

/-- C4 (witness): with one device live and one session tracked, the
refresh is a no-op and both countEndpoints calls return 1. -/
theorem C4_refresh_idempotent_witness :
    ResetPluginIfRequired env1 ⟨[5], [m1c]⟩ = some ⟨⟨[5], [m1c]⟩, [], 0⟩ ∧
    UnityMIDIReceiver_CountEndpoints env1 ⟨[5], [m1c]⟩ =
      some ((1 : Int), ⟨[5], [m1c]⟩) ∧
    (UnityMIDIReceiver_CountEndpoints env1 ⟨[5], [m1c]⟩).bind
        (fun cs => UnityMIDIReceiver_CountEndpoints env1 cs.2) =
      some ((1 : Int), ⟨[5], [m1c]⟩) :=
  C4_refresh_idempotent env1 ⟨[5], [m1c]⟩ (by decide)

/-! Claim C5. -/

/-- C5 (code bug): the claim says every queue operation performs its whole
check-and-mutate sequence while holding messageQueueLock. In the source
only the push (lines 55-57) and the back/pop pair (lines 142-145) run
under the lock: the emptiness check of the dequeue (line 140) runs before
lock() is called, and the refresh-time clear (the swap at lines 75-76)
never acquires the lock at all. -/
theorem C5_unguarded_accesses :
    allGuarded midiInProcDataAccesses = true ∧
    allGuarded dequeueAccesses = false ∧
    allGuarded resetClearAccesses = false := by
  decide

/-! Claim C7. -/

/-- C7: with no topology change pending, dequeue on an empty queue returns
the all-zero sentinel and leaves the state unchanged. -/
theorem C7_dequeue_empty (env : MidiEnv) (s : PluginState)
    (hstable : env.midiInGetNumDevs = s.handles.length)
    (hempty : s.messageQueue = []) :
    UnityMIDIReceiver_DequeueIncomingData env s = some (0, s) := by
  obtain ⟨hl, q⟩ := s
  simp only at hstable hempty
  subst hempty
  unfold UnityMIDIReceiver_DequeueIncomingData ResetPluginIfRequired
  rw [if_pos hstable]

/-- C7 (witness): dequeue on the empty queue with a stable one-device
topology returns 0 and the untouched state. -/
theorem C7_dequeue_empty_witness :
    UnityMIDIReceiver_DequeueIncomingData env1 ⟨[5], []⟩ = some (0, ⟨[5], []⟩) :=
  C7_dequeue_empty env1 ⟨[5], []⟩ (by decide) rfl

/-! Claim C8. -/

/-- C8: getEndpointIdAtIndex returns 0 for every out-of-range index
(negative or at least the registry size) and the endpoint identifier of
the session at the index otherwise; the embedding is a total function, so
no exception is possible. -/
theorem C8_get_endpoint_id (s : PluginState) (index : Int) :
    ((index < 0 ∨ (s.handles.length : Int) ≤ index) →
      UnityMIDIReceiver_GetEndpointIDAtIndex s index = 0) ∧
    ∀ (_hnn : 0 ≤ index) (hlt : index.toNat < s.handles.length),
      UnityMIDIReceiver_GetEndpointIDAtIndex s index =
        ConvertHandle (s.handles.get ⟨index.toNat, hlt⟩) := by
  constructor
  · intro hoob
    unfold UnityMIDIReceiver_GetEndpointIDAtIndex
    rw [if_neg]
    rintro ⟨h1, h2⟩
    rcases hoob with h | h <;> omega
  · intro hnn hlt
    unfold UnityMIDIReceiver_GetEndpointIDAtIndex
    rw [if_pos ⟨hnn, by omega⟩]
    congr 1
    rw [List.getD_eq_getElem?_getD, List.getElem?_eq_getElem hlt,
      Option.getD_some, List.get_eq_getElem]

/-- C8 (witness): with registry [55, 2^32 + 7], index -1 and index 2 give
the sentinel 0, index 0 gives 55 and index 1 gives the truncated handle 7. -/
theorem C8_get_endpoint_id_witness :
    UnityMIDIReceiver_GetEndpointIDAtIndex ⟨[55, 4294967303], []⟩ (-1) = 0 ∧
    UnityMIDIReceiver_GetEndpointIDAtIndex ⟨[55, 4294967303], []⟩ 0 = 55 ∧
    UnityMIDIReceiver_GetEndpointIDAtIndex ⟨[55, 4294967303], []⟩ 1 = 7 ∧
    UnityMIDIReceiver_GetEndpointIDAtIndex ⟨[55, 4294967303], []⟩ 2 = 0 := by
  refine ⟨?_, ?_, ?_, ?_⟩
  · exact (C8_get_endpoint_id ⟨[55, 4294967303], []⟩ (-1)).1 (Or.inl (by decide))
  · exact Eq.trans
      ((C8_get_endpoint_id ⟨[55, 4294967303], []⟩ 0).2 (by decide) (by decide))
      (by decide)
  · exact Eq.trans
      ((C8_get_endpoint_id ⟨[55, 4294967303], []⟩ 1).2 (by decide) (by decide))
      (by decide)
  · exact (C8_get_endpoint_id ⟨[55, 4294967303], []⟩ 2).1 (Or.inr (by decide))

/-! Claim C9. -/

/-- C9: when every slot 0..n-1 opens and starts successfully (the platform
contract for a count the platform itself reported), the refresh never hits
the fatal-abort branch: ResetPluginIfRequired always returns a state. -/
theorem C9_no_abort (env : MidiEnv) (s : PluginState)
    (hok : ∀ i, i < env.midiInGetNumDevs →
      ∃ hd, env.midiInOpen i = some hd ∧ env.midiInStart hd = true) :
    ∃ r, ResetPluginIfRequired env s = some r := by
  by_cases h : env.midiInGetNumDevs = s.handles.length
  · exact ⟨⟨s, [], 0⟩, by unfold ResetPluginIfRequired; rw [if_pos h]⟩
  · obtain ⟨hs, hhs, _⟩ := openAll_ok env env.midiInGetNumDevs hok
    exact ⟨⟨⟨hs, []⟩, s.handles, env.midiInGetNumDevs⟩, by
      unfold ResetPluginIfRequired; rw [if_neg h, hhs]⟩

/-- C9 (witness): a full refresh from an empty registry under env3, where
all three opens and starts succeed, completes without aborting. -/
theorem C9_no_abort_witness :
    ∃ r, ResetPluginIfRequired env3 ⟨[], []⟩ = some r :=
  C9_no_abort env3 ⟨[], []⟩ (fun i _ => ⟨100 + i, rfl, rfl⟩)

/-! Claim C10. -/

/-- C10: the ingress callback appends exactly one decoded event when
invoked with MIM_DATA and leaves the queue unchanged for every other
callback message kind. -/
theorem C10_callback_frame (hMidiIn wMsg dwParam1 : Nat) (q : List Message) :
    (wMsg = MM_MIM_DATA →
      MyMidiInProc hMidiIn wMsg dwParam1 q =
        q ++ [⟨ConvertHandle hMidiIn, dwParam1 % 2 ^ 8, dwParam1 / 2 ^ 8 % 2 ^ 8,
          dwParam1 / 2 ^ 16 % 2 ^ 8⟩]) ∧
    (wMsg ≠ MM_MIM_DATA → MyMidiInProc hMidiIn wMsg dwParam1 q = q) := by
  constructor
  · intro h
    unfold MyMidiInProc
    rw [if_pos h]
  · intro h
    unfold MyMidiInProc
    rw [if_neg h]

/-- C10 (witness): a MIM_DATA callback with dwParam1 = 0x7F3C90 appends
one event (status 0x90, data1 0x3C, data2 0x7F); a MIM_OPEN (0x3C1)
callback leaves the queue untouched. -/
theorem C10_callback_frame_witness :
    MyMidiInProc 5 0x3C3 0x7F3C90 [] = [⟨5, 0x90, 0x3C, 0x7F⟩] ∧
    MyMidiInProc 5 0x3C1 0x7F3C90 [m1c] = [m1c] := by
  constructor
  · exact Eq.trans ((C10_callback_frame 5 0x3C3 0x7F3C90 []).1 rfl) (by decide)
  · exact (C10_callback_frame 5 0x3C1 0x7F3C90 [m1c]).2 (by decide)

end UnityMidiReceiver
